import Mathlib

set_option maxRecDepth 100000

/-!
Verification of `fix_windows_cuda.py`, a script that patches a fixed set of
third-party source files for Windows/MSVC compatibility.

The script is embedded shallowly:

* file contents are `List Char`;
* Python's `str.replace`, `str.split`, `str.find` and slicing are modelled by
  executable Lean functions with the same semantics (`pyReplace`, `pyReplace1`,
  `pySplit`, `pyFind`);
* `re.sub` is modelled by `reSub` for the patterns of this script whose only
  regex metacharacters are `.` (any character) and the group parentheses
  `(`/`)` (which do not affect what matches), and by `zerosSub` for the one
  capturing-group pattern used on `filter_neighbor.cpp`/`filter_parent.cpp`;
* the filesystem is a finite map from path strings to file entries plus a set
  of directories (`FS`); an unreadable (or undecodable) file models a read
  that raises `OSError`/`UnicodeDecodeError`, an unwritable file models a
  write that raises;
* each fix function becomes `FS → FS × List String` (resulting filesystem and
  console lines); `fix_cumesh_setup` returns `Except` because its line
  `content.split('"nvcc": [')[1]` can raise an uncaught `IndexError`.

Recursions over shrinking string suffixes are written with an explicit fuel
argument initialised to the string length; every recursive step consumes at
least one character (all patterns supplied by the script are nonempty), so
the fuel never runs out and the functions compute by kernel reduction.
-/

namespace FixWindowsCuda

/-! ### Python string primitives -/

/-- One scanning pass of Python `str.replace` for a nonempty pattern `old`:
left-to-right, non-overlapping occurrences of `old` are replaced by `new`.
The fuel argument dominates the number of scanning steps; it is initialised
to the length of the scanned string, which always suffices because each step
consumes at least one character. -/
def replaceAllFuel (old new : List Char) : Nat → List Char → List Char
  | _, [] => []
  | 0, s => s
  | f + 1, c :: rest =>
    if old ≠ [] ∧ old <+: (c :: rest) then
      new ++ replaceAllFuel old new f ((c :: rest).drop old.length)
    else
      c :: replaceAllFuel old new f rest

/-- Python `s.replace(old, new)` (replace every non-overlapping occurrence;
for an empty `old`, Python inserts `new` before every character and at the
end). -/
def pyReplace (s old new : List Char) : List Char :=
  if old = [] then new ++ s.foldr (fun c acc => c :: (new ++ acc)) []
  else replaceAllFuel old new s.length s

/-- Helper for `pyReplace1`: replace the first occurrence of the nonempty
pattern `old`. -/
def replaceFirstAux (old new : List Char) : List Char → List Char
  | [] => []
  | c :: rest =>
    if old ≠ [] ∧ old <+: (c :: rest) then new ++ (c :: rest).drop old.length
    else c :: replaceFirstAux old new rest

/-- Python `s.replace(old, new, 1)` (replace at most one occurrence; for an
empty `old`, Python inserts `new` once at the start). -/
def pyReplace1 (s old new : List Char) : List Char :=
  if old = [] then new ++ s else replaceFirstAux old new s

/-- Fuelled worker for Python `str.split` with a nonempty separator. -/
def pySplitFuel (sep : List Char) : Nat → List Char → List (List Char)
  | _, [] => [[]]
  | 0, s => [s]
  | f + 1, c :: rest =>
    if sep ≠ [] ∧ sep <+: (c :: rest) then
      [] :: pySplitFuel sep f ((c :: rest).drop sep.length)
    else
      match pySplitFuel sep f rest with
      | [] => [[c]]
      | t :: ts => (c :: t) :: ts

/-- Python `s.split(sep)` for a nonempty separator (Python raises
`ValueError` on an empty separator; the script only splits on nonempty
literals). -/
def pySplit (sep s : List Char) : List (List Char) := pySplitFuel sep s.length s

/-- Python `s.find(needle)`: index of the first occurrence, `none` for
Python's `-1`. -/
def pyFind (needle : List Char) : List Char → Option Nat
  | [] => if needle = [] then some 0 else none
  | c :: rest =>
    if needle <+: (c :: rest) then some 0 else (pyFind needle rest).map (· + 1)

/-- Python `needle in s` (substring containment). -/
def containsSeq (needle : List Char) : List Char → Bool
  | [] => needle.isEmpty
  | c :: rest => (decide (needle <+: (c :: rest))) || containsSeq needle rest

/-- Number of positions at which `needle` starts in `hay` (counts
overlapping starts; used only to state theorems about how many copies of a
flag a patched file contains). -/
def occCount (needle : List Char) : List Char → Nat
  | [] => 0
  | c :: rest => (if needle <+: (c :: rest) then 1 else 0) + occCount needle rest

/-! ### `fix_flexgemm_cuda_file`: literal `uint` replacements -/

def uintOld1 : List Char := "uint tmp = neigh_map[n * V + v];".data

def uintNew1 : List Char := "uint32_t tmp = neigh_map[n * V + v];".data

def uintOld2 : List Char := "*(uint*)&neigh_map_T[v * N + n + n_base] = tmp;".data

def uintNew2 : List Char := "*(uint32_t*)&neigh_map_T[v * N + n + n_base] = tmp;".data

def uintOld3 : List Char := "*(uint*)&neigh_mask_T[v * N + n + n_base] = tmp;".data

def uintNew3 : List Char := "*(uint32_t*)&neigh_mask_T[v * N + n + n_base] = tmp;".data

/-- The content transformation of `fix_flexgemm_cuda_file`: the three
`content.replace(...)` calls in sequence. -/
def fix_flexgemm_content (content : List Char) : List Char :=
  pyReplace (pyReplace (pyReplace content uintOld1 uintNew1) uintOld2 uintNew2) uintOld3 uintNew3

/-! ### `fix_cumesh_setup`: marker-scoped flag additions -/

def nvccMarker : List Char := "\"nvcc\": [".data

def closeBracketComma : List Char := "],".data

def xcudafeLit : List Char := "\"-Xcudafe\"".data

def diagSuppressLit : List Char := "\"--diag_suppress=2872\"".data

def nvccOld : List Char := "\"nvcc\": [\"-O3\",\"-std=c++17\"] + cc_flag,".data

def nvccNew : List Char :=
  "\"nvcc\": [\"-O3\",\"-std=c++17\"] + cc_flag + [\n                    \"-Xcudafe\", \"--diag_suppress=2872\",\n                ],".data

def cubvhMarker : List Char := "name=\x27cumesh._cubvh\x27".data

def xatlasMarker : List Char := "name=\x27cumesh._xatlas\x27".data

def dssizeLit : List Char := "\"-Dssize_t=ptrdiff_t\"".data

def cxxOld : List Char := "\"cxx\": [\"-O3\", \"-std=c++17\"],".data

def cxxNew : List Char := "\"cxx\": [\"-O3\", \"-std=c++17\", \"-Dssize_t=ptrdiff_t\"],".data

def cubvhNvccOld : List Char :=
  ("\"nvcc\": [\"-O3\",\"-std=c++17\"] + cc_flag + [\n                        \"--extended-lambda\",\n                        \"--expt-relaxed-constexpr\",\n                        # The following definitions must be undefined\n                        # since we need half-precision operation.\n                        \"-U__CUDA_NO_HALF_OPERATORS__\",\n                        \"-U__CUDA_NO_HALF_CONVERSIONS__\",\n                        \"-U__CUDA_NO_HALF2_OPERATORS__\",\n                    ]").data

def cubvhNvccNew : List Char :=
  ("\"nvcc\": [\"-O3\",\"-std=c++17\"] + cc_flag + [\n                        \"--extended-lambda\",\n                        \"--expt-relaxed-constexpr\",\n                        # The following definitions must be undefined\n                        # since we need half-precision operation.\n                        \"-U__CUDA_NO_HALF_OPERATORS__\",\n                        \"-U__CUDA_NO_HALF_CONVERSIONS__\",\n                        \"-U__CUDA_NO_HALF2_OPERATORS__\",\n                        \"-Xcudafe\", \"--diag_suppress=2872\",\n                    ]").data

/-- The content transformation of `fix_cumesh_setup`.  Returns `none` when
`content.split('"nvcc": [')[1]` raises `IndexError`, i.e. when the `"nvcc": [`
marker does not occur in the file.  Otherwise runs the three rules in order:
(1) append the diagnostic-suppression flag to the `cumesh._C` nvcc list if
the first nvcc section lacks it; (2) between the `cumesh._cubvh` and
`cumesh._xatlas` markers, add `-Dssize_t=ptrdiff_t` to the first `cxx` flag
list of that slice, then substitute the modified slice for every occurrence
of the original slice; (3) append the suppression flag to the exact
multi-line `cumesh._cubvh` nvcc block if present. -/
def cumeshTransform (content : List Char) : Option (List Char) :=
  match (pySplit nvccMarker content).get? 1 with
  | none => none
  | some afterMarker =>
    let nvccSection := ((pySplit closeBracketComma afterMarker).get? 0).getD []
    let c1 :=
      if ¬ (containsSeq xcudafeLit nvccSection) ∨ ¬ (containsSeq diagSuppressLit nvccSection) then
        pyReplace content nvccOld nvccNew
      else content
    let c2 :=
      match pyFind cubvhMarker c1, pyFind xatlasMarker c1 with
      | some cubvhStart, some xatlasStart =>
        let cubvhSection := (c1.take xatlasStart).drop cubvhStart
        if ¬ (containsSeq dssizeLit cubvhSection) then
          pyReplace c1 cubvhSection (pyReplace1 cubvhSection cxxOld cxxNew)
        else c1
      | _, _ => c1
    let c3 := if containsSeq cubvhNvccOld c2 then pyReplace c2 cubvhNvccOld cubvhNvccNew else c2
    some c3

/-! ### `re.sub` for the o-voxel patterns -/

/-- A compiled regex token for the patterns of this script: a literal
character or `.` (any character). -/
inductive RTok where
  | lit (c : Char)
  | wild
deriving DecidableEq

/-- Compilation of the script's pattern strings by Python `re`: `.` matches
any character, the group parentheses `(` and `)` only capture and do not
constrain matching, every other character occurring in these patterns is
literal. -/
def compileRe (s : List Char) : List RTok :=
  s.foldr
    (fun c acc =>
      if c = '.' then RTok.wild :: acc
      else if c = '(' ∨ c = ')' then acc
      else RTok.lit c :: acc)
    []

def rtokMatches : RTok → Char → Bool
  | RTok.lit c, d => c == d
  | RTok.wild, _ => true

/-- Match the token list at the start of `s`; returns the remainder. -/
def rmatch : List RTok → List Char → Option (List Char)
  | [], s => some s
  | _ :: _, [] => none
  | t :: ps, d :: s => if rtokMatches t d then rmatch ps s else none

/-- Fuelled worker for `re.sub` with a token-list pattern: leftmost,
non-overlapping matches are replaced.  Fuel is initialised to the string
length; every pattern of this script consumes at least one character per
match, so the fuel suffices. -/
def reSubFuel (p : List RTok) (new : List Char) : Nat → List Char → List Char
  | _, [] => []
  | 0, s => s
  | f + 1, c :: rest =>
    match rmatch p (c :: rest) with
    | some rest2 => new ++ reSubFuel p new f rest2
    | none => c :: reSubFuel p new f rest

/-- `re.sub(pattern, new, s)` for a pattern string whose only
metacharacters are `.`, `(`, `)`. -/
def reSub (pattern new s : List Char) : List Char :=
  reSubFuel (compileRe pattern) new s.length s

def svoOld1 : List Char :=
  "torch::Tensor codes_tensor = torch::from_blob(codes.data(), \x7bcodes.size()\x7d, torch::kInt32).clone();".data

def svoNew1 : List Char :=
  "torch::Tensor codes_tensor = torch::from_blob(codes.data(), \x7bstatic_cast<int64_t>(codes.size())\x7d, torch::kInt32).clone();".data

def svoOld2 : List Char :=
  "torch::Tensor svo_tensor = torch::from_blob(svo.data(), \x7bsvo.size()\x7d, torch::kUInt8).clone();".data

def svoNew2 : List Char :=
  "torch::Tensor svo_tensor = torch::from_blob(svo.data(), \x7bstatic_cast<int64_t>(svo.size())\x7d, torch::kUInt8).clone();".data

/-- Content transformation for `src/io/svo.cpp`: the two `re.sub` calls of
`svo_fixes` in order. -/
def svoTransform (content : List Char) : List Char :=
  reSub svoOld2 svoNew2 (reSub svoOld1 svoNew1 content)

def gridOld1 : List Char := "1e-6d".data

def gridNew1 : List Char := "1e-6".data

def gridOld2 : List Char := "0.0d".data

def gridNew2 : List Char := "0.0".data

/-- Content transformation for `src/convert/flexible_dual_grid.cpp`: the two
`re.sub` calls of `grid_fixes` in order (note that the patterns are compiled
as regexes, so the `.` of `0.0d` matches any character). -/
def gridTransform (content : List Char) : List Char :=
  reSub gridOld2 gridNew2 (reSub gridOld1 gridNew1 content)

/-! ### the `filter_neighbor.cpp`/`filter_parent.cpp` capturing regex

Pattern: `(\s*)torch::Tensor\s+(\w+)\s*=\s*torch::zeros\(\{(\w+),\s*(\w+)\},\s*torch::dtype\(torch::kUInt8\)\);`.
Because `\s` and `\w` are disjoint character classes and each literal
character following a starred class is outside that class, the greedy
backtracking match of this pattern is equivalent to maximal munch, which is
what `matchZerosAt` implements. -/

/-- Python `\s` (ASCII range; the files patched by the script are ASCII). -/
def isSpaceChar (c : Char) : Bool :=
  c == ' ' || c == '\t' || c == '\n' || c == '\r' || c == '\x0b' || c == '\x0c'

/-- Python `\w` (ASCII range). -/
def isWordChar (c : Char) : Bool := c.isAlphanum || c == '_'

/-- Consume an exact literal. -/
def eatLit (pat s : List Char) : Option (List Char) :=
  if pat <+: s then some (s.drop pat.length) else none

/-- Match the tensor-zeros pattern at the start of `s`; returns the four
captured groups and the remainder after the match. -/
def matchZerosAt (s : List Char) : Option (List Char × List Char × List Char × List Char × List Char) :=
  let g1 := s.takeWhile isSpaceChar
  let s1 := s.dropWhile isSpaceChar
  (eatLit "torch::Tensor".data s1).bind fun s2 =>
  if (s2.takeWhile isSpaceChar).isEmpty then none else
  let s3 := s2.dropWhile isSpaceChar
  let g2 := s3.takeWhile isWordChar
  if g2.isEmpty then none else
  let s4 := (s3.dropWhile isWordChar).dropWhile isSpaceChar
  (eatLit "=".data s4).bind fun s5 =>
  let s6 := s5.dropWhile isSpaceChar
  (eatLit "torch::zeros(\x7b".data s6).bind fun s7 =>
  let g3 := s7.takeWhile isWordChar
  if g3.isEmpty then none else
  let s8 := s7.dropWhile isWordChar
  (eatLit ",".data s8).bind fun s9 =>
  let s10 := s9.dropWhile isSpaceChar
  let g4 := s10.takeWhile isWordChar
  if g4.isEmpty then none else
  let s11 := s10.dropWhile isWordChar
  (eatLit "\x7d,".data s11).bind fun s12 =>
  let s13 := s12.dropWhile isSpaceChar
  (eatLit "torch::dtype(torch::kUInt8));".data s13).map fun s14 =>
  (g1, g2, g3, g4, s14)

/-- The replacement template
`\1torch::Tensor \2 = torch::zeros({static_cast<int64_t>(\3), static_cast<int64_t>(\4)}, torch::dtype(torch::kUInt8));`. -/
def zerosRepl (g1 g2 g3 g4 : List Char) : List Char :=
  g1 ++ "torch::Tensor ".data ++ g2 ++ " = torch::zeros(\x7bstatic_cast<int64_t>(".data ++ g3 ++
    "), static_cast<int64_t>(".data ++ g4 ++ ")\x7d, torch::dtype(torch::kUInt8));".data

/-- Fuelled worker for the tensor-zeros `re.sub`; every match consumes at
least the literal `torch::Tensor`, so fuel = string length suffices. -/
def zerosSubFuel : Nat → List Char → List Char
  | _, [] => []
  | 0, s => s
  | f + 1, c :: rest =>
    match matchZerosAt (c :: rest) with
    | some (g1, g2, g3, g4, rest2) => zerosRepl g1 g2 g3 g4 ++ zerosSubFuel f rest2
    | none => c :: zerosSubFuel f rest

/-- `re.sub` with the tensor-zeros pattern (the single rule of
`neighbor_fixes` and of `parent_fixes`). -/
def zerosSub (s : List Char) : List Char := zerosSubFuel s.length s

/-! ### Filesystem model -/

/-- A file: its text content, whether reading it succeeds (false models
`OSError`/`UnicodeDecodeError` on read) and whether writing it succeeds
(false models `OSError`/`UnicodeEncodeError` on write). -/
structure FileEntry where
  content : List Char
  readable : Bool
  writable : Bool
deriving DecidableEq

/-- The filesystem: named files and a set of directories. -/
structure FS where
  files : List (String × FileEntry)
  dirs : List String
deriving DecidableEq

def FS.lookupFile (fs : FS) (p : String) : Option FileEntry :=
  (fs.files.find? fun e => e.1 == p).map (·.2)

def FS.fileExists (fs : FS) (p : String) : Bool := (fs.lookupFile p).isSome

def FS.dirExists (fs : FS) (p : String) : Bool := fs.dirs.contains p

/-- `os.path.exists`. -/
def FS.pathExists (fs : FS) (p : String) : Bool := fs.fileExists p || fs.dirExists p

/-- `open(p).read()`: `none` models a raised `OSError`/`UnicodeDecodeError`. -/
def FS.readFile (fs : FS) (p : String) : Option (List Char) :=
  match fs.lookupFile p with
  | some e => if e.readable then some e.content else none
  | none => none

/-- `open(p, 'w').write(c)`: creates the file or overwrites its content;
`none` models a raised `OSError`/`UnicodeEncodeError`. -/
def FS.writeFile (fs : FS) (p : String) (c : List Char) : Option FS :=
  match fs.lookupFile p with
  | some e =>
    if e.writable then
      some { fs with files := fs.files.map fun q => if q.1 == p then (q.1, { q.2 with content := c }) else q }
    else none
  | none => some { fs with files := (p, ⟨c, true, true⟩) :: fs.files }

/-- `os.makedirs(p, exist_ok=True)`. -/
def FS.mkdirP (fs : FS) (p : String) : FS :=
  if fs.dirs.contains p then fs else { fs with dirs := p :: fs.dirs }

/-! ### The fix functions over the filesystem -/

def flexPath : String := "tmp/extensions/FlexGEMM/flex_gemm/kernels/cuda/spconv/neighbor_map.cu"

/-- `fix_flexgemm_cuda_file`: the whole body is inside one
`try/except (OSError, UnicodeDecodeError)`. -/
def fix_flexgemm_cuda_file (fs : FS) : FS × List String :=
  if fs.pathExists flexPath then
    match fs.readFile flexPath with
    | none => (fs, ["Error processing " ++ flexPath])
    | some content =>
      let c2 := fix_flexgemm_content content
      if c2 ≠ content then
        match fs.writeFile flexPath c2 with
        | some fs2 => (fs2, ["Fixed FlexGEMM CUDA file for Windows compatibility."])
        | none => (fs, ["Error processing " ++ flexPath])
      else (fs, ["FlexGEMM CUDA file already fixed or no changes needed."])
  else (fs, ["File not found: " ++ flexPath])

def cumeshPath : String := "tmp/extensions/CuMesh/setup.py"

/-- `fix_cumesh_setup`.  The `.error` result models the uncaught
`IndexError` raised by `content.split('"nvcc": [')[1]` when the marker is
absent; only the read and the write are guarded by `try/except`. -/
def fix_cumesh_setup (fs : FS) : Except (FS × List String) (FS × List String) :=
  if fs.pathExists cumeshPath then
    match fs.readFile cumeshPath with
    | none => Except.ok (fs, ["Error reading " ++ cumeshPath])
    | some content =>
      match cumeshTransform content with
      | none => Except.error (fs, [])
      | some c2 =>
        if c2 ≠ content then
          match fs.writeFile cumeshPath c2 with
          | some fs2 => Except.ok (fs2, ["Fixed CuMesh setup.py for Windows compatibility."])
          | none => Except.ok (fs, ["Error writing " ++ cumeshPath])
        else Except.ok (fs, ["CuMesh setup.py already fixed or no changes needed."])
  else Except.ok (fs, ["File not found: " ++ cumeshPath])

/-- `_apply_file_fixes(file_path, replacements, description)`: each
replacement pair is embedded as its `re.sub` content transformation.  Note
that a missing file returns silently, with no console line. -/
def apply_file_fixes (file_path : String) (replacements : List (List Char → List Char))
    (description : String) (fs : FS) : FS × List String :=
  if fs.pathExists file_path then
    match fs.readFile file_path with
    | none => (fs, ["Error processing " ++ file_path])
    | some content =>
      let c2 := replacements.foldl (fun c r => r c) content
      if c2 ≠ content then
        match fs.writeFile file_path c2 with
        | some fs2 => (fs2, ["Fixed " ++ description ++ " for MSVC compatibility."])
        | none => (fs, ["Error processing " ++ file_path])
      else (fs, [description ++ " already fixed or no changes needed."])
  else (fs, [])

def svoPath : String := "tmp/extensions/o-voxel/src/io/svo.cpp"

def neighborPath : String := "tmp/extensions/o-voxel/src/io/filter_neighbor.cpp"

def parentPath : String := "tmp/extensions/o-voxel/src/io/filter_parent.cpp"

def gridPath : String := "tmp/extensions/o-voxel/src/convert/flexible_dual_grid.cpp"

def svoReps : List (List Char → List Char) :=
  [fun c => reSub svoOld1 svoNew1 c, fun c => reSub svoOld2 svoNew2 c]

def zerosReps : List (List Char → List Char) := [zerosSub]

def gridReps : List (List Char → List Char) :=
  [fun c => reSub gridOld1 gridNew1 c, fun c => reSub gridOld2 gridNew2 c]

/-- `fix_o_voxel_files`: the four `_apply_file_fixes` calls in order. -/
def fix_o_voxel_files (fs : FS) : FS × List String :=
  let r1 := apply_file_fixes svoPath svoReps "o-voxel src/io/svo.cpp" fs
  let r2 := apply_file_fixes neighborPath zerosReps "o-voxel src/io/filter_neighbor.cpp" r1.1
  let r3 := apply_file_fixes parentPath zerosReps "o-voxel src/io/filter_parent.cpp" r2.1
  let r4 := apply_file_fixes gridPath gridReps "o-voxel src/convert/flexible_dual_grid.cpp" r3.1
  (r4.1, r1.2 ++ r2.2 ++ r3.2 ++ r4.2)

def nvdiffrecDir : String := "tmp/extensions/nvdiffrec"

def nvdiffrecManifestPath : String := "tmp/extensions/nvdiffrec/MANIFEST.in"

def nvdiffrecTargetDir : String := "tmp/extensions/nvdiffrec/nvdiffrec_render/renderutils/c_src"

def manifestExpected : List Char := "recursive-include nvdiffrec_render/renderutils/c_src *.h\n".data

/-- `fix_nvdiffrec_manifest`.  On a read error of an existing manifest the
source logs the error and deliberately falls through to the write
(`# Continue to overwrite`). -/
def fix_nvdiffrec_manifest (fs : FS) : FS × List String :=
  if fs.pathExists nvdiffrecTargetDir then
    let pre : List String × Bool :=
      if fs.pathExists nvdiffrecManifestPath then
        match fs.readFile nvdiffrecManifestPath with
        | some current =>
          if current = manifestExpected then
            (["nvdiffrec MANIFEST.in already has correct content."], true)
          else ([], false)
        | none => (["Error reading existing " ++ nvdiffrecManifestPath], false)
      else ([], false)
    if pre.2 then (fs, pre.1)
    else
      let fs1 := fs.mkdirP nvdiffrecDir
      match fs1.writeFile nvdiffrecManifestPath manifestExpected with
      | some fs2 => (fs2, pre.1 ++ ["Created/updated nvdiffrec MANIFEST.in for Windows compatibility."])
      | none => (fs1, pre.1 ++ ["Error creating/updating " ++ nvdiffrecManifestPath])
  else
    (fs, ["Warning: Target directory " ++ nvdiffrecTargetDir ++ " does not exist. Skipping MANIFEST.in creation."])

/-- The body of the `if platform.system() == 'Windows'` branch: the four fix
functions in order.  An `.error` result is the state and output at the point
where the uncaught `IndexError` of `fix_cumesh_setup` terminates the run. -/
def runFixes (fs : FS) : Except (FS × List String) (FS × List String) :=
  let r1 := fix_flexgemm_cuda_file fs
  match fix_cumesh_setup r1.1 with
  | Except.error (fs2, o2) => Except.error (fs2, r1.2 ++ o2)
  | Except.ok (fs2, o2) =>
    let r3 := fix_o_voxel_files fs2
    let r4 := fix_nvdiffrec_manifest r3.1
    Except.ok (r4.1, r1.2 ++ o2 ++ r3.2 ++ r4.2)

/-- The `__main__` block, with `platform.system() == 'Windows'` as a boolean
parameter. -/
def mainProgram (isWindows : Bool) (fs : FS) : Except (FS × List String) (FS × List String) :=
  if isWindows then runFixes fs else Except.ok (fs, ["Not on Windows, skipping fixes."])

/-! ### Concrete data used by the claim theorems -/

def emptyFS : FS := ⟨[], []⟩

/-- A filesystem where `setup.py` exists but lacks the `"nvcc": [` marker,
and the flexible_dual_grid.cpp file still needs its literal-suffix fix. -/
def fsC2 : FS :=
  ⟨[(cumeshPath, ⟨"x = 1\n".data, true, true⟩), (gridPath, ⟨"0.0d".data, true, true⟩)], []⟩

/-- A filesystem whose nvdiffrec target directory exists, with a manifest
file whose read raises (models a decode error). -/
def fsC9 : FS :=
  ⟨[(nvdiffrecManifestPath, ⟨"old".data, false, true⟩)], [nvdiffrecTargetDir, nvdiffrecDir]⟩

/-- `fsC9` after `fix_nvdiffrec_manifest` overwrote the manifest. -/
def fsC9After : FS :=
  ⟨[(nvdiffrecManifestPath, ⟨manifestExpected, false, true⟩)], [nvdiffrecTargetDir, nvdiffrecDir]⟩

/-- A filesystem whose nvdiffrec target directory exists and which has no
manifest file (for the manifest-creation witness). -/
def fsC8 : FS := ⟨[], [nvdiffrecTargetDir]⟩

def unreadableEntry : FileEntry := ⟨"x".data, false, true⟩

def fsFlexBad : FS := ⟨[(flexPath, unreadableEntry)], []⟩

def fsCumeshBad : FS := ⟨[(cumeshPath, unreadableEntry)], []⟩

def fsSvoBad : FS := ⟨[(svoPath, unreadableEntry)], []⟩

/-- The filesystem state after the first run of `fix_nvdiffrec_manifest` in
the create-manifest scenario: the parent directory is ensured and the
manifest file is created with the expected content. -/
def manifestCreated (fs : FS) : FS :=
  ⟨(nvdiffrecManifestPath, ⟨manifestExpected, true, true⟩) :: fs.files, (fs.mkdirP nvdiffrecDir).dirs⟩

/-- A first `"nvcc": [...]` flag list that already carries both suppression
flags, so that rule (1) of `fix_cumesh_setup` is skipped. -/
def c4SecPrefix : String := "\"nvcc\": [\"-Xcudafe\",\"--diag_suppress=2872\"],"

/-- The text between the `cumesh._cubvh` marker (inclusive) and the
`cumesh._xatlas` marker (exclusive): the marker followed by a `cxx` flag
list without the `-Dssize_t=ptrdiff_t` flag. -/
def c4SectionOld : String := "name=\x27cumesh._cubvh\x27\"cxx\": [\"-O3\", \"-std=c++17\"],"

def c4SectionNew : String :=
  "name=\x27cumesh._cubvh\x27\"cxx\": [\"-O3\", \"-std=c++17\", \"-Dssize_t=ptrdiff_t\"],"

def c4Xatlas : String := "name=\x27cumesh._xatlas\x27"

/-- A setup.py content whose bounded cubvh region is followed, after the
xatlas marker, by an exact copy of the whole region text. -/
def c4Content : String := c4SecPrefix ++ c4SectionOld ++ c4Xatlas ++ c4SectionOld

def c4Output : String := c4SecPrefix ++ c4SectionNew ++ c4Xatlas ++ c4SectionNew

/-- A setup.py content whose bounded cubvh region is followed, after the
xatlas marker, by an identical `cxx` flag list that is not embedded in a
copy of the whole region text. -/
def c4Content2 : String :=
  c4SecPrefix ++ c4SectionOld ++ c4Xatlas ++ "\"cxx\": [\"-O3\", \"-std=c++17\"],"

def c4Output2 : String :=
  c4SecPrefix ++ c4SectionNew ++ c4Xatlas ++ "\"cxx\": [\"-O3\", \"-std=c++17\"],"

/-- A bare tensor-zeros call without the `torch::Tensor NAME =` declaration
prefix that the regex requires. -/
def zerosBareLine : List Char :=
  "torch::zeros(\x7bN, C\x7d, torch::dtype(torch::kUInt8));".data

def zerosDeclNC : List Char :=
  "torch::Tensor out = torch::zeros(\x7bN, C\x7d, torch::dtype(torch::kUInt8));".data

def zerosDeclNCOut : List Char :=
  "torch::Tensor out = torch::zeros(\x7bstatic_cast<int64_t>(N), static_cast<int64_t>(C)\x7d, torch::dtype(torch::kUInt8));".data

def zerosDeclFooBar : List Char :=
  "  torch::Tensor buf = torch::zeros(\x7bFoo, Bar\x7d, torch::dtype(torch::kUInt8));".data

def zerosDeclFooBarOut : List Char :=
  "  torch::Tensor buf = torch::zeros(\x7bstatic_cast<int64_t>(Foo), static_cast<int64_t>(Bar)\x7d, torch::dtype(torch::kUInt8));".data

/-- The svo source line with the parentheses removed and the characters at
the pattern's `.` positions replaced by arbitrary letters: exactly what the
svo pattern, compiled as a regex, matches. -/
def svoVariant : List Char :=
  "torch::Tensor codes_tensor = torch::from_blobcodesXdata, \x7bcodesYsize\x7d, torch::kInt32Zclone;".data

/-- A FlexGEMM kernel fragment containing the three known-bad statements. -/
def flexSample : List Char :=
  ("  uint tmp = neigh_map[n * V + v];\n  *(uint*)&neigh_map_T[v * N + n + n_base] = tmp;\n  *(uint*)&neigh_mask_T[v * N + n + n_base] = tmp;\n").data

/-! ### General lemmas about `replaceAllFuel`

`replaceAllFuel old new` scans left to right; the following lemmas isolate
the conditions under which a replacement pass cannot create an occurrence of
a pattern `p`: `p` must not occur in `new`, no nonempty proper prefix of `p`
may be a suffix of `new`, and no nonempty proper suffix of `p` may be a
prefix of `new`.  They are used to prove that `fix_flexgemm_cuda_file` is
idempotent on every content. -/

theorem infix_append_cases {α : Type} {p u v : List α} (h : p <:+: u ++ v) :
    p <:+: u ∨ p <:+: v ∨
      ∃ k, 0 < k ∧ k < p.length ∧ p.take k <:+ u ∧ p.drop k <+: v := by
  induction u with
  | nil => exact Or.inr (Or.inl (by simpa using h))
  | cons a u' ih =>
    rw [List.cons_append] at h
    rcases List.infix_cons_iff.mp h with hp | hi
    · rw [← List.cons_append] at hp
      by_cases hl : p.length ≤ (a :: u').length
      · exact Or.inl ((List.isPrefix_append_of_length hl).mp hp).isInfix
      · push_neg at hl
        have hup : (a :: u') <+: p :=
          List.prefix_of_prefix_length_le (List.prefix_append _ _) hp (Nat.le_of_lt hl)
        have htake : p.take (a :: u').length = a :: u' := (List.prefix_iff_eq_take.mp hup).symm
        refine Or.inr (Or.inr ⟨(a :: u').length, by simp, hl, ?_, ?_⟩)
        · rw [htake]
        · obtain ⟨t, ht⟩ := hp
          have hsplit : (a :: u') ++ p.drop (a :: u').length = p := by
            conv_rhs => rw [← List.take_append_drop (a :: u').length p]
            rw [htake]
          have hq : (a :: u') ++ (p.drop (a :: u').length ++ t) = (a :: u') ++ v := by
            rw [← List.append_assoc, hsplit]
            exact ht
          exact ⟨t, List.append_cancel_left hq⟩
    · rcases ih hi with h1 | h2 | ⟨k, hk0, hkl, hsu, hpv⟩
      · exact Or.inl (List.infix_cons h1)
      · exact Or.inr (Or.inl h2)
      · exact Or.inr (Or.inr ⟨k, hk0, hkl, hsu.trans (List.suffix_cons a u'), hpv⟩)

theorem replaceAllFuel_zero (old new : List Char) (s : List Char) :
    replaceAllFuel old new 0 s = s := by
  cases s <;> simp [replaceAllFuel]

/-- If a nonempty proper suffix of `p` is a prefix of the output of a
replacement pass, then (given that no nonempty proper suffix of `p` is a
prefix of `new`, and `p` is not longer than `new`) it was already a prefix
of the input. -/
theorem prefix_drop_transfer (old new p : List Char) (hlen : p.length ≤ new.length)
    (h2' : ∀ k, k < p.length → 0 < k → ¬ p.drop k <+: new) :
    ∀ (f : Nat) (t : List Char) (k : Nat), 0 < k → k < p.length →
      p.drop k <+: replaceAllFuel old new f t → p.drop k <+: t := by
  intro f
  induction f with
  | zero => intro t k _ _ hpre; rwa [replaceAllFuel_zero] at hpre
  | succ f ih =>
    intro t k hk0 hkl hpre
    cases t with
    | nil =>
      simp only [replaceAllFuel, List.prefix_nil] at hpre
      have : p.length ≤ k := by
        have := congrArg List.length hpre
        simp [List.length_drop] at this
        omega
      omega
    | cons c rest =>
      simp only [replaceAllFuel] at hpre
      by_cases hg : old ≠ [] ∧ old <+: (c :: rest)
      · rw [if_pos hg] at hpre
        have hle : (p.drop k).length ≤ new.length := by
          simp only [List.length_drop]; omega
        exact absurd ((List.isPrefix_append_of_length hle).mp hpre) (h2' k hkl hk0)
      · rw [if_neg hg] at hpre
        have hkd : p.drop k = p[k] :: p.drop (k + 1) := List.drop_eq_getElem_cons hkl
        rw [hkd] at hpre
        obtain ⟨hc, htail⟩ := List.cons_prefix_cons.mp hpre
        by_cases hk1 : k + 1 < p.length
        · have := ih rest (k + 1) (by omega) hk1 htail
          rw [hkd]
          exact List.cons_prefix_cons.mpr ⟨hc, this⟩
        · have hempty : p.drop (k + 1) = [] := List.drop_eq_nil_iff.mpr (by omega)
          rw [hkd, hempty]
          exact List.cons_prefix_cons.mpr ⟨hc, List.nil_prefix⟩

/-- After a full replacement pass for `old`, the pattern `old` no longer
occurs, provided `old` does not occur in `new`, no nonempty proper prefix of
`old` is a suffix of `new`, no nonempty proper suffix of `old` is a prefix
of `new`, and `old` is not longer than `new`. -/
theorem replaceAllFuel_kill (old new : List Char) (hne : old ≠ [])
    (hni : ¬ old <:+: new) (hlen : old.length ≤ new.length)
    (h2 : ∀ k, k < old.length → 0 < k → ¬ old.take k <:+ new)
    (h2' : ∀ k, k < old.length → 0 < k → ¬ old.drop k <+: new) :
    ∀ (f : Nat) (s : List Char), s.length ≤ f → ¬ old <:+: replaceAllFuel old new f s := by
  intro f
  induction f with
  | zero =>
    intro s hs
    have : s = [] := List.eq_nil_of_length_eq_zero (Nat.le_zero.mp hs)
    subst this
    simp only [replaceAllFuel]
    intro hocc
    exact hne (List.eq_nil_of_infix_nil hocc)
  | succ f ih =>
    intro s hs
    cases s with
    | nil =>
      simp only [replaceAllFuel]
      intro hocc
      exact hne (List.eq_nil_of_infix_nil hocc)
    | cons c rest =>
      simp only [replaceAllFuel]
      have hrest : rest.length ≤ f := by simpa using hs
      by_cases hg : old ≠ [] ∧ old <+: (c :: rest)
      · rw [if_pos hg]
        intro hocc
        rcases infix_append_cases hocc with h1 | h1 | ⟨k, hk0, hkl, hsu, _⟩
        · exact hni h1
        · have hdlen : ((c :: rest).drop old.length).length ≤ f := by
            have : 0 < old.length := List.length_pos.mpr hne
            simp only [List.length_drop, List.length_cons]
            omega
          exact ih _ hdlen h1
        · exact h2 k hkl hk0 hsu
      · rw [if_neg hg]
        intro hocc
        rcases List.infix_cons_iff.mp hocc with hp | hi
        · cases old with
          | nil => exact hne rfl
          | cons o otail =>
            obtain ⟨hoc, hot⟩ := List.cons_prefix_cons.mp hp
            by_cases h1 : 1 < (o :: otail).length
            · have htr := prefix_drop_transfer (o :: otail) new (o :: otail) hlen h2' f rest 1
                Nat.one_pos h1 (by simpa using hot)
              exact hg ⟨hne, List.cons_prefix_cons.mpr ⟨hoc, by simpa using htr⟩⟩
            · have hot0 : otail = [] := by
                have h2le : (o :: otail).length ≤ 1 := Nat.not_lt.mp h1
                simp only [List.length_cons] at h2le
                exact List.eq_nil_of_length_eq_zero (by omega)
              subst hot0
              exact hg ⟨hne, List.cons_prefix_cons.mpr ⟨hoc, List.nil_prefix⟩⟩
        · exact ih rest hrest hi

/-- A replacement pass for `old` cannot create an occurrence of a pattern
`p` that did not occur before, provided `p` does not occur in `new`, no
nonempty proper prefix of `p` is a suffix of `new`, no nonempty proper
suffix of `p` is a prefix of `new`, and `p` is not longer than `new`. -/
theorem replaceAllFuel_preserve (old new p : List Char) (hpne : p ≠ [])
    (hni : ¬ p <:+: new) (hlen : p.length ≤ new.length)
    (h2 : ∀ k, k < p.length → 0 < k → ¬ p.take k <:+ new)
    (h2' : ∀ k, k < p.length → 0 < k → ¬ p.drop k <+: new) :
    ∀ (f : Nat) (s : List Char), ¬ p <:+: s → ¬ p <:+: replaceAllFuel old new f s := by
  intro f
  induction f with
  | zero => intro s hns; rwa [replaceAllFuel_zero]
  | succ f ih =>
    intro s hns
    cases s with
    | nil => simpa [replaceAllFuel] using hns
    | cons c rest =>
      simp only [replaceAllFuel]
      have hnrest : ¬ p <:+: rest := fun h => hns (List.infix_cons h)
      by_cases hg : old ≠ [] ∧ old <+: (c :: rest)
      · rw [if_pos hg]
        intro hocc
        rcases infix_append_cases hocc with h1 | h1 | ⟨k, hk0, hkl, hsu, _⟩
        · exact hni h1
        · have hnd : ¬ p <:+: (c :: rest).drop old.length :=
            fun h => hns (h.trans (List.drop_suffix _ _).isInfix)
          exact ih _ hnd h1
        · exact h2 k hkl hk0 hsu
      · rw [if_neg hg]
        intro hocc
        rcases List.infix_cons_iff.mp hocc with hp | hi
        · cases p with
          | nil => exact hpne rfl
          | cons q qtail =>
            obtain ⟨hqc, hqt⟩ := List.cons_prefix_cons.mp hp
            by_cases h1 : 1 < (q :: qtail).length
            · have htr := prefix_drop_transfer old new (q :: qtail) hlen h2' f rest 1
                Nat.one_pos h1 (by simpa using hqt)
              exact hns (List.IsPrefix.isInfix
                (List.cons_prefix_cons.mpr ⟨hqc, by simpa using htr⟩))
            · have hqt0 : qtail = [] := by
                have h2le : (q :: qtail).length ≤ 1 := Nat.not_lt.mp h1
                simp only [List.length_cons] at h2le
                exact List.eq_nil_of_length_eq_zero (by omega)
              subst hqt0
              exact hns (List.IsPrefix.isInfix (List.cons_prefix_cons.mpr ⟨hqc, List.nil_prefix⟩))
        · exact ih rest hnrest hi

/-- A replacement pass is the identity when the pattern does not occur. -/
theorem replaceAllFuel_eq_self (old new : List Char) :
    ∀ (f : Nat) (s : List Char), ¬ old <:+: s → replaceAllFuel old new f s = s := by
  intro f
  induction f with
  | zero => intro s _; exact replaceAllFuel_zero old new s
  | succ f ih =>
    intro s hns
    cases s with
    | nil => simp [replaceAllFuel]
    | cons c rest =>
      simp only [replaceAllFuel]
      have hg : ¬ (old ≠ [] ∧ old <+: (c :: rest)) := fun hg => hns hg.2.isInfix
      rw [if_neg hg]
      have : ¬ old <:+: rest := fun h => hns (List.infix_cons h)
      rw [ih rest this]

/-! ### `pyReplace` corollaries of the scanning lemmas -/

theorem pyReplace_eq_self {s old new : List Char} (h : ¬ old <:+: s) :
    pyReplace s old new = s := by
  have hne : old ≠ [] := by rintro rfl; exact h List.nil_infix
  rw [pyReplace, if_neg hne]
  exact replaceAllFuel_eq_self old new s.length s h

theorem pyReplace_kill {old new : List Char} (s : List Char) (hne : old ≠ [])
    (hni : ¬ old <:+: new) (hlen : old.length ≤ new.length)
    (h2 : ∀ k, k < old.length → 0 < k → ¬ old.take k <:+ new)
    (h2' : ∀ k, k < old.length → 0 < k → ¬ old.drop k <+: new) :
    ¬ old <:+: pyReplace s old new := by
  rw [pyReplace, if_neg hne]
  exact replaceAllFuel_kill old new hne hni hlen h2 h2' s.length s (Nat.le_refl _)

theorem pyReplace_preserve {p old new : List Char} (s : List Char) (hone : old ≠ [])
    (hpne : p ≠ []) (hni : ¬ p <:+: new) (hlen : p.length ≤ new.length)
    (h2 : ∀ k, k < p.length → 0 < k → ¬ p.take k <:+ new)
    (h2' : ∀ k, k < p.length → 0 < k → ¬ p.drop k <+: new)
    (h : ¬ p <:+: s) : ¬ p <:+: pyReplace s old new := by
  rw [pyReplace, if_neg hone]
  exact replaceAllFuel_preserve old new p hpne hni hlen h2 h2' s.length s h

/-! ### Claim C1 -/

/-- C1 (counterexample): running a fix twice is not always the same as
running it once.  The literal-suffix fix of `flexible_dual_grid.cpp` maps
the content `1e-6dd` to `1e-6d` on the first run (the replaced `1e-6d` and
the trailing `d` re-form the pattern), and to `1e-6` on the second run, so
the second run changes the file again and reports fixed, not already
fixed. -/
theorem gridFix_not_idempotent :
    gridTransform (gridTransform "1e-6dd".data) ≠ gridTransform "1e-6dd".data := by decide

/-- C1 (amended): the FlexGEMM fix is idempotent on every initial file
content: its three literal replacement rules can neither survive a pass nor
be re-created by a pass, so the second run is a no-op and takes the
unchanged branch. -/
theorem fix_flexgemm_content_idem (c : List Char) :
    fix_flexgemm_content (fix_flexgemm_content c) = fix_flexgemm_content c := by
  have hk1 : ¬ uintOld1 <:+: pyReplace c uintOld1 uintNew1 :=
    pyReplace_kill c (by decide) (by decide) (by decide) (by decide) (by decide)
  have hp12 : ¬ uintOld1 <:+: pyReplace (pyReplace c uintOld1 uintNew1) uintOld2 uintNew2 :=
    pyReplace_preserve _ (by decide) (by decide) (by decide) (by decide) (by decide) (by decide)
      hk1
  have h1 : ¬ uintOld1 <:+: fix_flexgemm_content c :=
    pyReplace_preserve _ (by decide) (by decide) (by decide) (by decide) (by decide) (by decide)
      hp12
  have hk2 : ¬ uintOld2 <:+: pyReplace (pyReplace c uintOld1 uintNew1) uintOld2 uintNew2 :=
    pyReplace_kill _ (by decide) (by decide) (by decide) (by decide) (by decide)
  have h2 : ¬ uintOld2 <:+: fix_flexgemm_content c :=
    pyReplace_preserve _ (by decide) (by decide) (by decide) (by decide) (by decide) (by decide)
      hk2
  have h3 : ¬ uintOld3 <:+: fix_flexgemm_content c :=
    pyReplace_kill _ (by decide) (by decide) (by decide) (by decide) (by decide)
  show pyReplace (pyReplace (pyReplace (fix_flexgemm_content c) uintOld1 uintNew1)
      uintOld2 uintNew2) uintOld3 uintNew3 = fix_flexgemm_content c
  rw [pyReplace_eq_self h1, pyReplace_eq_self h2, pyReplace_eq_self h3]

/-- C1 (witness): the idempotence theorem applied to a concrete kernel
fragment containing all three known-bad statements. -/
theorem fix_flexgemm_content_idem_w :
    fix_flexgemm_content (fix_flexgemm_content flexSample) = fix_flexgemm_content flexSample :=
  fix_flexgemm_content_idem flexSample

/-! ### Claim C2 -/

/-- C2: when `setup.py` exists but its content lacks the `"nvcc": [` marker,
`fix_cumesh_setup`'s line `content.split('"nvcc": [')[1]` raises an uncaught
`IndexError` (the content transformation returns `none`); the whole run then
terminates at that point: `mainProgram` returns the error state after only
the FlexGEMM fix has run, and the still-broken `flexible_dual_grid.cpp`
(content `0.0d`) is never fixed.  This contradicts the spec's error design
(absent pattern is a silent no-op; no failure aborts the remaining files),
so the code, not the claim, is at fault. -/
theorem cumesh_missing_marker_raises :
    cumeshTransform "x = 1\n".data = none ∧
    mainProgram true fsC2 = Except.error (fsC2, ["File not found: " ++ flexPath]) ∧
    fsC2.readFile gridPath = some "0.0d".data :=
  ⟨rfl, rfl, rfl⟩

/-! ### Claim C3 -/

/-- C3 (counterexample): on a filesystem where none of the o-voxel files
exist, `fix_o_voxel_files` (four calls of `_apply_file_fixes`) leaves the
filesystem unchanged but prints nothing at all — no "not found" report is
made, contrary to the claim that every fix function reports "not found". -/
theorem ovoxel_missing_files_silent : fix_o_voxel_files emptyFS = (emptyFS, []) := rfl

/-- C3 (amended): on missing paths every fix operation returns without
error and leaves the filesystem unchanged; `fix_flexgemm_cuda_file` and
`fix_cumesh_setup` report "File not found", `fix_nvdiffrec_manifest` prints
a warning about the missing target directory, but `_apply_file_fixes` (and
hence each o-voxel fix) returns silently without any report. -/
theorem missing_paths_reported_or_silent (fs : FS)
    (h1 : fs.pathExists flexPath = false) (h2 : fs.pathExists cumeshPath = false)
    (h3 : fs.pathExists svoPath = false) (h4 : fs.pathExists neighborPath = false)
    (h5 : fs.pathExists parentPath = false) (h6 : fs.pathExists gridPath = false)
    (h7 : fs.pathExists nvdiffrecTargetDir = false) :
    fix_flexgemm_cuda_file fs = (fs, ["File not found: " ++ flexPath]) ∧
    fix_cumesh_setup fs = Except.ok (fs, ["File not found: " ++ cumeshPath]) ∧
    fix_o_voxel_files fs = (fs, []) ∧
    fix_nvdiffrec_manifest fs = (fs, ["Warning: Target directory " ++ nvdiffrecTargetDir ++
      " does not exist. Skipping MANIFEST.in creation."]) ∧
    runFixes fs = Except.ok (fs, ["File not found: " ++ flexPath,
      "File not found: " ++ cumeshPath,
      "Warning: Target directory " ++ nvdiffrecTargetDir ++
        " does not exist. Skipping MANIFEST.in creation."]) := by
  have ha : fix_flexgemm_cuda_file fs = (fs, ["File not found: " ++ flexPath]) := by
    simp [fix_flexgemm_cuda_file, h1]
  have hb : fix_cumesh_setup fs = Except.ok (fs, ["File not found: " ++ cumeshPath]) := by
    simp [fix_cumesh_setup, h2]
  have hc : fix_o_voxel_files fs = (fs, []) := by
    simp [fix_o_voxel_files, apply_file_fixes, h3, h4, h5, h6]
  have hd : fix_nvdiffrec_manifest fs = (fs, ["Warning: Target directory " ++
      nvdiffrecTargetDir ++ " does not exist. Skipping MANIFEST.in creation."]) := by
    simp [fix_nvdiffrec_manifest, h7]
  refine ⟨ha, hb, hc, hd, ?_⟩
  simp [runFixes, ha, hb, hc, hd]

/-- C3 (witness): the amended theorem applied to the empty filesystem. -/
theorem missing_paths_reported_or_silent_w :
    fix_flexgemm_cuda_file emptyFS = (emptyFS, ["File not found: " ++ flexPath]) ∧
    fix_cumesh_setup emptyFS = Except.ok (emptyFS, ["File not found: " ++ cumeshPath]) ∧
    fix_o_voxel_files emptyFS = (emptyFS, []) ∧
    fix_nvdiffrec_manifest emptyFS = (emptyFS, ["Warning: Target directory " ++
      nvdiffrecTargetDir ++ " does not exist. Skipping MANIFEST.in creation."]) ∧
    runFixes emptyFS = Except.ok (emptyFS, ["File not found: " ++ flexPath,
      "File not found: " ++ cumeshPath,
      "Warning: Target directory " ++ nvdiffrecTargetDir ++
        " does not exist. Skipping MANIFEST.in creation."]) :=
  missing_paths_reported_or_silent emptyFS rfl rfl rfl rfl rfl rfl rfl

/-! ### Claim C4 -/

/-- C4 (counterexample): `content.replace(cubvh_section, cubvh_section_new)`
substitutes the patched section for EVERY occurrence of the section text.
On `c4Content`, whose bounded region (cubvh marker followed by a plain cxx
flag list) is textually repeated after the xatlas marker, the
`-Dssize_t=ptrdiff_t` flag — absent from the input — ends up in two places,
the second of which lies outside the bounded region, so the identical cxx
flag list outside the region is not left unchanged. -/
theorem cumesh_section_copy_also_patched :
    cumeshTransform c4Content.data = some c4Output.data ∧
    occCount dssizeLit c4Content.data = 0 ∧
    occCount dssizeLit c4Output.data = 2 := by
  refine ⟨by decide, by decide, by decide⟩

/-- C4 (amended): the type-redefinition flag is appended to the first
matching cxx flag list inside the bounded region, and the patched region
text then replaces every occurrence of the original region text in the
file; an identical cxx flag list outside the region whose surroundings do
not reproduce the whole region text is left unchanged, as on `c4Content2`
where the flag appears exactly once in the output. -/
theorem cumesh_flag_scoped_when_section_unique :
    cumeshTransform c4Content2.data = some c4Output2.data ∧
    occCount dssizeLit c4Content2.data = 0 ∧
    occCount dssizeLit c4Output2.data = 1 := by
  refine ⟨by decide, by decide, by decide⟩

/-! ### Claim C5 -/

/-- C5 (counterexample): the fix patterns are passed to `re.sub`, so the
`.` in `0.0d` matches any character: the token `000d` — which the claim
says is left untouched — is rewritten (to `0.0`). -/
theorem grid_000d_rewritten : gridTransform "000d".data ≠ "000d".data := by decide

/-- C5 (amended): the literal-suffix fix rewrites `1e-6d` to `1e-6` and
`0.0d` to `0.0`; `2.0d` and content without a pattern occurrence are left
untouched, but any four-character token matching `0`, any character, `0`,
`d` — such as `000d` — is also rewritten to `0.0`, because the pattern is
compiled as a regex in which `.` is a wildcard. -/
theorem grid_literal_suffix_fix :
    gridTransform "1e-6d".data = "1e-6".data ∧
    gridTransform "0.0d".data = "0.0".data ∧
    gridTransform "2.0d".data = "2.0d".data ∧
    gridTransform "000d".data = "0.0".data ∧
    gridTransform "double x = 1.5;".data = "double x = 1.5;".data := by
  refine ⟨by decide, by decide, by decide, by decide, by decide⟩

/-! ### Claim C6 -/

/-- C6 (counterexample): the tensor-cast regex requires the declaration
prefix `torch::Tensor NAME =` before `torch::zeros`; an input line that is
just the bare call `torch::zeros({N, C}, torch::dtype(torch::kUInt8));`
does not match and is left unchanged — no cast is inserted, contrary to the
claim that both size arguments are rewritten. -/
theorem zeros_bare_call_unchanged :
    zerosSub zerosBareLine = zerosBareLine ∧
    containsSeq "static_cast<int64_t>(".data (zerosSub zerosBareLine) = false := by
  refine ⟨rfl, by decide⟩

/-- C6 (amended): full declaration lines
`torch::Tensor NAME = torch::zeros({A, B}, torch::dtype(torch::kUInt8));`
have both size arguments wrapped in `static_cast<int64_t>(...)` for any
identifiers (`N, C` and `Foo, Bar` shown), while a line already carrying
the casts is left unchanged; a bare `torch::zeros` call without the
declaration prefix is not rewritten. -/
theorem zeros_declaration_rewritten :
    zerosSub zerosDeclNC = zerosDeclNCOut ∧
    zerosSub zerosDeclFooBar = zerosDeclFooBarOut ∧
    zerosSub zerosDeclNCOut = zerosDeclNCOut := by
  refine ⟨by decide, by decide, by decide⟩

/-! ### Claim C7 -/

/-- C7: on a non-Windows platform the program performs no filesystem
mutation at all and prints exactly the one skip notice; none of the fix
functions runs. -/
theorem non_windows_skips (fs : FS) :
    mainProgram false fs = Except.ok (fs, ["Not on Windows, skipping fixes."]) := rfl

/-- C7 (witness): the platform gate on the empty filesystem. -/
theorem non_windows_skips_w :
    mainProgram false emptyFS = Except.ok (emptyFS, ["Not on Windows, skipping fixes."]) :=
  non_windows_skips emptyFS

/-! ### Claim C8 helper lemmas -/

theorem mkdirP_files (fs : FS) (d : String) : (fs.mkdirP d).files = fs.files := by
  unfold FS.mkdirP
  split <;> rfl

theorem dirExists_mkdirP (fs : FS) (d x : String) (h : fs.dirExists x = true) :
    (fs.mkdirP d).dirExists x = true := by
  unfold FS.mkdirP FS.dirExists at *
  split
  · exact h
  · simp only [List.contains_cons, h, Bool.or_true]

/-! ### Claim C8 -/

/-- C8: when the target header-source directory exists and no manifest file
is present, `fix_nvdiffrec_manifest` creates the manifest containing
exactly the expected single line; running the fix again leaves the
filesystem unchanged and reports "already has correct content"; and when
the target directory does not exist the fix writes nothing. -/
theorem manifest_scenario (fs fsN : FS)
    (h1 : fs.dirExists nvdiffrecTargetDir = true)
    (h2 : fs.lookupFile nvdiffrecManifestPath = none)
    (h3 : nvdiffrecManifestPath ∉ fs.dirs)
    (hN : fsN.pathExists nvdiffrecTargetDir = false) :
    fix_nvdiffrec_manifest fs =
      (manifestCreated fs, ["Created/updated nvdiffrec MANIFEST.in for Windows compatibility."]) ∧
    (manifestCreated fs).readFile nvdiffrecManifestPath = some manifestExpected ∧
    fix_nvdiffrec_manifest (manifestCreated fs) =
      (manifestCreated fs, ["nvdiffrec MANIFEST.in already has correct content."]) ∧
    fix_nvdiffrec_manifest fsN = (fsN, ["Warning: Target directory " ++ nvdiffrecTargetDir ++
      " does not exist. Skipping MANIFEST.in creation."]) := by
  have hPE : fs.pathExists nvdiffrecTargetDir = true := by
    simp [FS.pathExists, h1]
  have hMF : fs.pathExists nvdiffrecManifestPath = false := by
    simp [FS.pathExists, FS.fileExists, FS.dirExists, h2, h3]
  have hlook1 : (fs.mkdirP nvdiffrecDir).lookupFile nvdiffrecManifestPath = none := by
    unfold FS.lookupFile at h2 ⊢
    rw [mkdirP_files]
    exact h2
  have hfirst : fix_nvdiffrec_manifest fs =
      (manifestCreated fs,
        ["Created/updated nvdiffrec MANIFEST.in for Windows compatibility."]) := by
    unfold fix_nvdiffrec_manifest
    rw [hPE, hMF]
    simp only [Bool.false_eq_true, if_false, if_true]
    unfold FS.writeFile
    rw [hlook1]
    simp [manifestCreated, mkdirP_files]
  have hlook2 : (manifestCreated fs).lookupFile nvdiffrecManifestPath =
      some ⟨manifestExpected, true, true⟩ := by
    simp [manifestCreated, FS.lookupFile, List.find?]
  have hread2 : (manifestCreated fs).readFile nvdiffrecManifestPath = some manifestExpected := by
    simp [FS.readFile, hlook2]
  have hPE2 : (manifestCreated fs).pathExists nvdiffrecTargetDir = true := by
    have : (manifestCreated fs).dirExists nvdiffrecTargetDir = true := by
      have := dirExists_mkdirP fs nvdiffrecDir nvdiffrecTargetDir h1
      unfold FS.dirExists at this ⊢
      exact this
    simp [FS.pathExists, this]
  have hMF2 : (manifestCreated fs).pathExists nvdiffrecManifestPath = true := by
    simp [FS.pathExists, FS.fileExists, hlook2]
  have hsecond : fix_nvdiffrec_manifest (manifestCreated fs) =
      (manifestCreated fs, ["nvdiffrec MANIFEST.in already has correct content."]) := by
    unfold fix_nvdiffrec_manifest
    rw [hPE2, hMF2, hread2]
    simp
  have hfourth : fix_nvdiffrec_manifest fsN = (fsN, ["Warning: Target directory " ++
      nvdiffrecTargetDir ++ " does not exist. Skipping MANIFEST.in creation."]) := by
    unfold fix_nvdiffrec_manifest
    rw [hN]
    simp
  exact ⟨hfirst, hread2, hsecond, hfourth⟩

/-- C8 (witness): the manifest scenario on a filesystem containing exactly
the target directory. -/
theorem manifest_scenario_w :
    fix_nvdiffrec_manifest fsC8 =
      (manifestCreated fsC8, ["Created/updated nvdiffrec MANIFEST.in for Windows compatibility."]) ∧
    (manifestCreated fsC8).readFile nvdiffrecManifestPath = some manifestExpected ∧
    fix_nvdiffrec_manifest (manifestCreated fsC8) =
      (manifestCreated fsC8, ["nvdiffrec MANIFEST.in already has correct content."]) ∧
    fix_nvdiffrec_manifest emptyFS = (emptyFS, ["Warning: Target directory " ++
      nvdiffrecTargetDir ++ " does not exist. Skipping MANIFEST.in creation."]) :=
  manifest_scenario fsC8 emptyFS (by decide) rfl (by decide) rfl

/-! ### Claim C9 -/

/-- C9 (counterexample): `fix_nvdiffrec_manifest` does NOT return early
without writing after a failed read of the manifest: on `fsC9` (manifest
present but unreadable) it logs the read error and then overwrites the
manifest with the expected content, as the source comments
(`# Continue to overwrite`). -/
theorem manifest_overwrites_after_read_error :
    fix_nvdiffrec_manifest fsC9 =
      (fsC9After, ["Error reading existing " ++ nvdiffrecManifestPath,
        "Created/updated nvdiffrec MANIFEST.in for Windows compatibility."]) ∧
    fsC9After.lookupFile nvdiffrecManifestPath = some ⟨manifestExpected, false, true⟩ :=
  ⟨rfl, rfl⟩

/-- C9 (amended): for `fix_flexgemm_cuda_file`, `fix_cumesh_setup` and
`_apply_file_fixes` a read (or decode) error on the target file is caught,
logged with the offending path, and the function returns without writing
anything (the filesystem is returned unchanged); only
`fix_nvdiffrec_manifest` deliberately continues after a failed read and
overwrites the manifest. -/
theorem read_error_early_return (fsA fsB fsD : FS) (eA eB eD : FileEntry)
    (p : String) (reps : List (List Char → List Char)) (d : String)
    (hA : fsA.lookupFile flexPath = some eA) (hrA : eA.readable = false)
    (hB : fsB.lookupFile cumeshPath = some eB) (hrB : eB.readable = false)
    (hD : fsD.lookupFile p = some eD) (hrD : eD.readable = false) :
    fix_flexgemm_cuda_file fsA = (fsA, ["Error processing " ++ flexPath]) ∧
    fix_cumesh_setup fsB = Except.ok (fsB, ["Error reading " ++ cumeshPath]) ∧
    apply_file_fixes p reps d fsD = (fsD, ["Error processing " ++ p]) := by
  refine ⟨?_, ?_, ?_⟩
  · simp [fix_flexgemm_cuda_file, FS.pathExists, FS.fileExists, FS.readFile, hA, hrA]
  · simp [fix_cumesh_setup, FS.pathExists, FS.fileExists, FS.readFile, hB, hrB]
  · simp [apply_file_fixes, FS.pathExists, FS.fileExists, FS.readFile, hD, hrD]

/-- C9 (witness): the amended theorem on concrete filesystems whose target
files are unreadable. -/
theorem read_error_early_return_w :
    fix_flexgemm_cuda_file fsFlexBad = (fsFlexBad, ["Error processing " ++ flexPath]) ∧
    fix_cumesh_setup fsCumeshBad = Except.ok (fsCumeshBad, ["Error reading " ++ cumeshPath]) ∧
    apply_file_fixes svoPath svoReps "o-voxel src/io/svo.cpp" fsSvoBad =
      (fsSvoBad, ["Error processing " ++ svoPath]) :=
  read_error_early_return fsFlexBad fsCumeshBad fsSvoBad
    unreadableEntry unreadableEntry unreadableEntry
    svoPath svoReps "o-voxel src/io/svo.cpp" rfl rfl rfl rfl rfl rfl

/-! ### Claim C10 -/

/-- C10: `_apply_file_fixes` hands every pattern to `re.sub`, so the
patterns written as literal source lines are compiled as regexes: `.`
matches any character and the parentheses of the svo patterns become
capture groups that match no text at all.  Hence contents that do not
contain the literal pattern text are still rewritten: `0x0d` (no literal
`0.0d` inside) becomes `0.0` under the grid fix, and a paren-free variant
of the svo line with arbitrary characters at the `.` positions (no literal
svo pattern inside) is rewritten to the full replacement line. -/
theorem patterns_are_regexes :
    gridTransform "0x0d".data = "0.0".data ∧
    containsSeq gridOld2 "0x0d".data = false ∧
    svoTransform svoVariant = svoNew1 ∧
    containsSeq svoOld1 svoVariant = false := by
  refine ⟨by decide, by decide, by decide, by decide⟩

end FixWindowsCuda
